import Mathlib

/-!
Verification of the security mediation layer of the Movement mini-app SDK:
the fixed-window rate limiter, the transaction validator, the nonce
registry and the message sanitizer of `SecurityManager`, and the
`SecureMovementSDK` facade operations built on them.

Times (`Date.now()` values) are modelled as `Int` milliseconds; strings as
Lean `String` (sequences of characters); the JS `Map` backing the rate
limiter as a function `String → Option RateLimitEntry`; the JS `Set`
backing the nonce registry as a `List String` in insertion order.
-/

/-- Resolved security configuration (`Required<SecurityConfig>`). -/
structure SecurityConfig where
  maxTransactionAmount : String
  allowedOrigins : List String
  rateLimitWindow : Int
  maxRequestsPerWindow : Nat
  enableCSP : Bool
  strictMode : Bool
deriving DecidableEq

/-- Defaults applied by the `SecurityManager` constructor. -/
def defaultConfig : SecurityConfig :=
  { maxTransactionAmount := "1000000000000"
    allowedOrigins := []
    rateLimitWindow := 60000
    maxRequestsPerWindow := 30
    enableCSP := true
    strictMode := true }

/-- Per-identifier rate-limit state: attempts in the current window and the
instant at which the window expires. -/
structure RateLimitEntry where
  count : Nat
  resetTime : Int
deriving DecidableEq

/-- The rate limiter's map from identifier to entry (`rateLimitMap`). -/
structure RLState where
  map : String → Option RateLimitEntry

/-- `rateLimitMap.set(id, e)`. -/
def rlSet (st : RLState) (id : String) (e : RateLimitEntry) : RLState :=
  ⟨fun k => if k = id then some e else st.map k⟩

/-- Empty rate-limit map (a freshly constructed `SecurityManager`). -/
def rlEmpty : RLState := ⟨fun _ => none⟩

/-- `SecurityManager.checkRateLimit(identifier)`, with the current instant
`now` passed explicitly.  Returns the boolean verdict and the updated map. -/
def checkRateLimit (cfg : SecurityConfig) (st : RLState) (now : Int)
    (id : String) : Bool × RLState :=
  match st.map id with
  | none => (true, rlSet st id ⟨1, now + cfg.rateLimitWindow⟩)
  | some entry =>
    if entry.resetTime ≤ now then
      (true, rlSet st id ⟨1, now + cfg.rateLimitWindow⟩)
    else if cfg.maxRequestsPerWindow ≤ entry.count then
      (false, st)
    else
      (true, rlSet st id ⟨entry.count + 1, entry.resetTime⟩)

/-- Iterate `checkRateLimit` for one identifier over a list of call
instants, collecting the verdicts. -/
def rlRun (cfg : SecurityConfig) (id : String) :
    RLState → List Int → List Bool × RLState
  | st, [] => ([], st)
  | st, t :: ts =>
    let p := checkRateLimit cfg st t id
    let r := rlRun cfg id p.2 ts
    (p.1 :: r.1, r.2)

/-! ### Nonce registry -/

/-- JS whitespace characters skipped by `parseInt`. -/
def jsWs (c : Char) : Bool :=
  c = ' ' || c = '\t' || c = '\n' || c = '\r' ||
  c = Char.ofNat 11 || c = Char.ofNat 12 || c = Char.ofNat 0xA0 ||
  c = Char.ofNat 0xFEFF || c = Char.ofNat 0x2028 || c = Char.ofNat 0x2029

/-- Hex digit as used by the `[a-fA-F0-9]` character classes. -/
def isHexCh (c : Char) : Bool :=
  ('0' ≤ c && c ≤ '9') || ('a' ≤ c && c ≤ 'f') || ('A' ≤ c && c ≤ 'F')

/-- Value of a list of decimal digits. -/
def decDigitsVal (ds : List Char) : Nat :=
  ds.foldl (fun a c => a * 10 + (c.toNat - 48)) 0

/-- Value of one hex digit. -/
def hexDigitVal (c : Char) : Nat :=
  if c ≤ '9' then c.toNat - 48 else if c ≤ 'F' then c.toNat - 55 else c.toNat - 87

/-- Value of a list of hex digits. -/
def hexDigitsVal (ds : List Char) : Nat :=
  ds.foldl (fun a c => a * 16 + hexDigitVal c) 0

/-- `parseInt` after sign handling: an optional `0x`/`0X` prefix switches
to hex; otherwise the longest leading run of decimal digits is taken;
no digits means `NaN`, modelled as `none`. -/
def parseIntBody (cs : List Char) : Option Nat :=
  match cs with
  | '0' :: c :: rest =>
    if c = 'x' || c = 'X' then
      let ds := rest.takeWhile isHexCh
      if ds.isEmpty then none else some (hexDigitsVal ds)
    else
      let ds := cs.takeWhile Char.isDigit
      if ds.isEmpty then none else some (decDigitsVal ds)
  | _ =>
    let ds := cs.takeWhile Char.isDigit
    if ds.isEmpty then none else some (decDigitsVal ds)

/-- JS `parseInt(s)` (default radix): skip leading whitespace, optional
sign, then `parseIntBody`; `none` models `NaN`. -/
def parseIntJS (s : String) : Option Int :=
  match s.data.dropWhile jsWs with
  | '-' :: rest => (parseIntBody rest).map (fun n => -(n : Int))
  | '+' :: rest => (parseIntBody rest).map (fun n => (n : Int))
  | rest => (parseIntBody rest).map (fun n => (n : Int))

/-- `nonce.split('-')[0]`: the portion before the first `-` (the whole
string when there is no `-`). -/
def nonceTsStr (nonce : String) : String :=
  ⟨nonce.data.takeWhile (fun c => c != '-')⟩

/-- Whether `Date.now() - parseInt(timestampPart) > 300000`; a `NaN`
timestamp makes the comparison false. -/
def nonceExpired (now : Int) (nonce : String) : Bool :=
  match parseIntJS (nonceTsStr nonce) with
  | none => false
  | some t => decide (300000 < now - t)

/-- Amortized cleanup run after an insertion when the registry exceeds
1000 entries: remove every entry older than 5 minutes. -/
def postInsert (now : Int) (s : List String) : List String :=
  if 1000 < s.length then s.filter (fun old => !nonceExpired now old) else s

/-- `SecurityManager.validateNonce(nonce)`, with `Date.now()` passed as
`now` and the `nonceSet` passed and returned explicitly in insertion
order. -/
def validateNonce (set : List String) (now : Int) (nonce : String) :
    Bool × List String :=
  if nonce ∈ set then (false, set)
  else if nonceExpired now nonce then (false, set)
  else (true, postInsert now (set ++ [nonce]))

/-! ### Message sanitizer -/

/-- Characters matched by `/[\x00-\x1F\x7F-\x9F]/`: the C0 and C1 control
ranges (with DEL). -/
def isCtlCh (c : Char) : Bool :=
  decide (c.toNat ≤ 0x1F) || (decide (0x7F ≤ c.toNat) && decide (c.toNat ≤ 0x9F))

/-- `SecurityManager.sanitizeMessage(message)`: strip control characters,
then truncate to at most 10000 characters. -/
def sanitizeMessage (message : String) : String :=
  let sanitized : List Char := message.data.filter (fun c => !isCtlCh c)
  if 10000 < sanitized.length then ⟨sanitized.take 10000⟩ else ⟨sanitized⟩

/-! ### Address validator -/

/-- Whether `pat` is a leading segment of `l` (character lists). -/
def leadMatch : List Char → List Char → Bool
  | [], _ => true
  | _ :: _, [] => false
  | p :: ps, c :: cs => (p == c) && leadMatch ps cs

/-- `address.startsWith('0x')`. -/
def startsWith0x (s : String) : Bool := leadMatch ['0', 'x'] s.data

/-- `SecurityManager.isValidAddress(address)`: `0x` lead, then
`address.slice(2)` must be 1–64 hex characters
(`hex.length > 64` rejected, then `/^[a-fA-F0-9]+$/` must match). -/
def isValidAddress (address : String) : Bool :=
  if startsWith0x address = false then false
  else if 64 < (address.data.drop 2).length then false
  else if (decide (0 < (address.data.drop 2).length) &&
      (address.data.drop 2).all isHexCh) = false then false
  else true

/-- The address-validity condition as the spec words it: a `0x` lead, a
hex portion of length 1–64, every character a hex digit. -/
def specValidAddress (a : String) : Prop :=
  startsWith0x a = true ∧ 1 ≤ (a.data.drop 2).length ∧
  (a.data.drop 2).length ≤ 64 ∧ ∀ c ∈ a.data.drop 2, isHexCh c = true

/-! ### Transaction validator -/

/-- A JS argument value: the validator only distinguishes strings from
everything else. -/
inductive JSVal where
  | str : String → JSVal
  | nonstr : JSVal
deriving DecidableEq

/-- A transaction payload as the validator probes it: `none` models a
missing/non-string `function` and a missing/non-array `arguments` or
`type_arguments`. -/
structure TxPayload where
  function : Option JSVal
  arguments : Option (List JSVal)
  type_arguments : Option (List JSVal)
deriving DecidableEq

/-- The `{valid, error?}` verdict returned by `validateTransaction`. -/
structure Verdict where
  valid : Bool
  error : Option String
deriving DecidableEq

/-- Whether `pat` occurs as a contiguous segment of `l`
(JS `String.prototype.includes`). -/
def hasSubAux (pat : List Char) : List Char → Bool
  | [] => leadMatch pat []
  | c :: tl => leadMatch pat (c :: tl) || hasSubAux pat tl

/-- `s.includes(pat)`. -/
def strIncludes (s pat : String) : Bool := hasSubAux pat.data s.data

/-- `[a-zA-Z_]`. -/
def isIdentStartCh (c : Char) : Bool :=
  ('a' ≤ c && c ≤ 'z') || ('A' ≤ c && c ≤ 'Z') || c = '_'

/-- `[a-zA-Z0-9_]`. -/
def isIdentCh (c : Char) : Bool := isIdentStartCh c || ('0' ≤ c && c ≤ '9')

/-- `[a-zA-Z_][a-zA-Z0-9_]*`. -/
def isIdentPart : List Char → Bool
  | [] => false
  | c :: rest => isIdentStartCh c && rest.all isIdentCh

/-- `0x[a-fA-F0-9]+`. -/
def isHexAddrPart : List Char → Bool
  | '0' :: 'x' :: rest => !rest.isEmpty && rest.all isHexCh
  | _ => false

/-- Split a character list on the two-character separator `::`,
left-to-right and non-overlapping (`acc` carries the current segment in
reverse). -/
def splitCC (acc : List Char) : List Char → List (List Char)
  | ':' :: ':' :: rest => acc.reverse :: splitCC [] rest
  | c :: rest => splitCC (c :: acc) rest
  | [] => [acc.reverse]

/-- The anchored pattern `0x[a-fA-F0-9]+::[a-zA-Z_][a-zA-Z0-9_]*::
[a-zA-Z_][a-zA-Z0-9_]*`: since neither hex digits nor identifier
characters include `:`, a match is exactly three well-formed
`::`-separated segments. -/
def functionPatternTest (s : String) : Bool :=
  match splitCC [] s.data with
  | [p1, p2, p3] => isHexAddrPart p1 && isIdentPart p2 && isIdentPart p3
  | _ => false

/-- Trim JS whitespace from both ends. -/
def jsTrim (cs : List Char) : List Char :=
  ((cs.dropWhile jsWs).reverse.dropWhile jsWs).reverse

/-- `[0-7]`. -/
def isOctCh (c : Char) : Bool := '0' ≤ c && c ≤ '7'

/-- `[01]`. -/
def isBinCh (c : Char) : Bool := c = '0' || c = '1'

/-- Value of a list of octal digits. -/
def octDigitsVal (ds : List Char) : Nat :=
  ds.foldl (fun a c => a * 8 + (c.toNat - 48)) 0

/-- Value of a list of binary digits. -/
def binDigitsVal (ds : List Char) : Nat :=
  ds.foldl (fun a c => a * 2 + (c.toNat - 48)) 0

/-- `BigInt` digit run after an optional sign: the whole rest must be
decimal digits, at least one. -/
def jsBigIntDec (cs : List Char) : Option Nat :=
  if cs.isEmpty then none
  else if cs.all Char.isDigit then some (decDigitsVal cs) else none

/-- `BigInt(s)` for a string argument: whitespace-trimmed; empty means 0;
an optional sign with decimal digits, or an unsigned `0x`/`0o`/`0b`
literal; anything else throws a `SyntaxError`, modelled as `none`. -/
def jsBigInt? (s : String) : Option Int :=
  match jsTrim s.data with
  | [] => some 0
  | '-' :: rest => (jsBigIntDec rest).map (fun n => -(n : Int))
  | '+' :: rest => (jsBigIntDec rest).map (fun n => (n : Int))
  | '0' :: 'x' :: rest =>
    if !rest.isEmpty && rest.all isHexCh then some (hexDigitsVal rest : Int) else none
  | '0' :: 'X' :: rest =>
    if !rest.isEmpty && rest.all isHexCh then some (hexDigitsVal rest : Int) else none
  | '0' :: 'o' :: rest =>
    if !rest.isEmpty && rest.all isOctCh then some (octDigitsVal rest : Int) else none
  | '0' :: 'O' :: rest =>
    if !rest.isEmpty && rest.all isOctCh then some (octDigitsVal rest : Int) else none
  | '0' :: 'b' :: rest =>
    if !rest.isEmpty && rest.all isBinCh then some (binDigitsVal rest : Int) else none
  | '0' :: 'B' :: rest =>
    if !rest.isEmpty && rest.all isBinCh then some (binDigitsVal rest : Int) else none
  | cs => (jsBigIntDec cs).map (fun n => (n : Int))

/-- The transfer-amount ceiling step of `validateTransaction`: when the
function name includes `::transfer` and the last argument is a string,
`BigInt(amount) > BigInt(config.maxTransactionAmount)` rejects with the
ceiling-naming message; a `BigInt` conversion failure throws
(`Except.error`). -/
def transferAmountCheck (cfg : SecurityConfig) (f : String)
    (args : List JSVal) : Except String (Option String) :=
  if strIncludes f "::transfer" then
    match args.getLast? with
    | some (JSVal.str a) =>
      match jsBigInt? a with
      | none => Except.error ("Cannot convert " ++ a ++ " to a BigInt")
      | some v =>
        match jsBigInt? cfg.maxTransactionAmount with
        | none =>
          Except.error ("Cannot convert " ++ cfg.maxTransactionAmount ++
            " to a BigInt")
        | some m =>
          if m < v then
            Except.ok (some ("Transaction amount exceeds maximum allowed (" ++
              cfg.maxTransactionAmount ++ ")"))
          else Except.ok none
    | _ => Except.ok none
  else Except.ok none

/-- The final loop of `validateTransaction`: every string argument that
starts with `0x` must pass `isValidAddress`; the first offender is
named. -/
def addressArgsCheck : List JSVal → Verdict
  | [] => ⟨true, none⟩
  | JSVal.str s :: rest =>
    if startsWith0x s && !isValidAddress s then
      ⟨false, some ("Invalid address format: " ++ s)⟩
    else addressArgsCheck rest
  | JSVal.nonstr :: rest => addressArgsCheck rest

/-- `SecurityManager.validateTransaction(payload)`: field checks, the
function-name pattern, the transfer ceiling, then argument addresses.
`Except.error` models an exception escaping the function (which the
source can raise via `BigInt`). -/
def validateTransaction (cfg : SecurityConfig) (p : TxPayload) :
    Except String Verdict :=
  match p.function with
  | some (JSVal.str f) =>
    if f = "" then
      Except.ok ⟨false, some "Invalid or missing transaction function"⟩
    else
      match p.arguments with
      | none => Except.ok ⟨false, some "Transaction arguments must be an array"⟩
      | some args =>
        match p.type_arguments with
        | none =>
          Except.ok ⟨false, some "Transaction type_arguments must be an array"⟩
        | some _ =>
          if functionPatternTest f = false then
            Except.ok ⟨false, some "Invalid transaction function format"⟩
          else
            match transferAmountCheck cfg f args with
            | Except.error e => Except.error e
            | Except.ok (some msg) => Except.ok ⟨false, some msg⟩
            | Except.ok none => Except.ok (addressArgsCheck args)
  | _ => Except.ok ⟨false, some "Invalid or missing transaction function"⟩

/-! ### Security mediator (`SecureMovementSDK`) -/

/-- A multi-agent transaction payload: the base payload plus the
`secondarySigners` field (`none` models a missing/undefined list). -/
structure MAPayload where
  base : TxPayload
  secondarySigners : Option (List String)
deriving DecidableEq

/-- Instrumented result of `sendMultiAgentTransaction`: whether
`validateTransaction` ran, whether the underlying bridge was invoked,
and the outcome (`Except.error` models a thrown `Error`). -/
structure MATrace where
  validatorCalled : Bool
  bridgeCalled : Bool
  outcome : Except String Unit

/-- `SecureMovementSDK.sendMultiAgentTransaction(payload)`: rate limit,
base validation, non-empty secondary signers each passing the address
validator, then delegation to the bridge. -/
def sendMultiAgentTransaction (cfg : SecurityConfig) (rl : RLState)
    (now : Int) (p : MAPayload) : MATrace × RLState :=
  if (checkRateLimit cfg rl now "sendMultiAgentTransaction").1 = false then
    (⟨false, false, Except.error
        "Too many multi-agent transaction requests. Please try again later."⟩,
     (checkRateLimit cfg rl now "sendMultiAgentTransaction").2)
  else
    match validateTransaction cfg p.base with
    | Except.error e =>
      (⟨true, false, Except.error e⟩,
       (checkRateLimit cfg rl now "sendMultiAgentTransaction").2)
    | Except.ok v =>
      if v.valid = false then
        (⟨true, false, Except.error (v.error.getD "")⟩,
         (checkRateLimit cfg rl now "sendMultiAgentTransaction").2)
      else
        match p.secondarySigners with
        | none =>
          (⟨true, false, Except.error
              "Multi-agent transaction requires at least one secondary signer"⟩,
           (checkRateLimit cfg rl now "sendMultiAgentTransaction").2)
        | some signers =>
          if signers.length = 0 then
            (⟨true, false, Except.error
                "Multi-agent transaction requires at least one secondary signer"⟩,
             (checkRateLimit cfg rl now "sendMultiAgentTransaction").2)
          else
            match signers.find? (fun s => !isValidAddress s) with
            | some s =>
              (⟨true, false, Except.error
                  ("Invalid secondary signer address: " ++ s)⟩,
               (checkRateLimit cfg rl now "sendMultiAgentTransaction").2)
            | none =>
              (⟨true, true, Except.ok ()⟩,
               (checkRateLimit cfg rl now "sendMultiAgentTransaction").2)

/-- A `signMessage` payload: `message` plus an optional `nonce`. -/
structure SMPayload where
  message : String
  nonce : Option String
deriving DecidableEq

/-- `SecurityManager.generateNonce()`, with `Date.now()` and the random
base-36 fragment passed explicitly: `timestamp + "-" + random`. -/
def generateNonce (now : Int) (rand : String) : String :=
  toString now ++ "-" ++ rand

/-- Instrumented result of `signMessage`: the caller's payload object
after the call (the source mutates it in place), the payload the bridge
receives (`none` when the bridge is not reached), and the outcome. -/
structure SignOutcome where
  callerPayload : SMPayload
  bridgeArg : Option SMPayload
  outcome : Except String Unit

/-- `payload.nonce = this.security.generateNonce()`: the in-place nonce
mutation of the caller's payload. -/
def withGeneratedNonce (payload : SMPayload) (now : Int) (rand : String) :
    SMPayload :=
  { payload with nonce := some (generateNonce now rand) }

/-- `{...payload, message: sanitizedMessage}`: the copy handed to the
bridge. -/
def withSanitizedMessage (payload : SMPayload) : SMPayload :=
  { payload with message := sanitizeMessage payload.message }

/-- `SecureMovementSDK.signMessage(payload)`: rate limit; a falsy nonce
(absent or empty) is replaced by a generated one, written into the
caller's payload object; a supplied nonce is validated against the
registry; the bridge receives a copy with the sanitized message. -/
def signMessage (cfg : SecurityConfig) (rl : RLState) (nonces : List String)
    (now : Int) (rand : String) (payload : SMPayload) :
    SignOutcome × RLState × List String :=
  if (checkRateLimit cfg rl now "signMessage").1 = false then
    (⟨payload, none,
      Except.error "Too many signing requests. Please try again later."⟩,
     (checkRateLimit cfg rl now "signMessage").2, nonces)
  else
    match payload.nonce with
    | none =>
      (⟨withGeneratedNonce payload now rand,
        some (withSanitizedMessage (withGeneratedNonce payload now rand)),
        Except.ok ()⟩,
       (checkRateLimit cfg rl now "signMessage").2, nonces)
    | some n =>
      if n = "" then
        (⟨withGeneratedNonce payload now rand,
          some (withSanitizedMessage (withGeneratedNonce payload now rand)),
          Except.ok ()⟩,
         (checkRateLimit cfg rl now "signMessage").2, nonces)
      else if (validateNonce nonces now n).1 = false then
        (⟨payload, none,
          Except.error "Invalid nonce - possible replay attack"⟩,
         (checkRateLimit cfg rl now "signMessage").2,
         (validateNonce nonces now n).2)
      else
        (⟨payload, some (withSanitizedMessage payload), Except.ok ()⟩,
         (checkRateLimit cfg rl now "signMessage").2,
         (validateNonce nonces now n).2)

theorem rlSet_map_self (st : RLState) (id : String) (e : RateLimitEntry) :
    (rlSet st id e).map id = some e := by
  simp [rlSet]

/-- While an unexpired entry has room, every call is allowed and just
increments the count. -/
theorem rlRun_within (cfg : SecurityConfig) (id : String) (r : Int) :
    ∀ (ts : List Int) (st : RLState) (c : Nat),
      st.map id = some ⟨c, r⟩ → (∀ t ∈ ts, t < r) →
      c + ts.length ≤ cfg.maxRequestsPerWindow →
      (rlRun cfg id st ts).1 = List.replicate ts.length true ∧
      (rlRun cfg id st ts).2.map id = some ⟨c + ts.length, r⟩ := by
  intro ts
  induction ts with
  | nil =>
    intro st c hmap _ _
    simpa [rlRun] using hmap
  | cons t ts ih =>
    intro st c hmap hlt hle
    have ht : t < r := hlt t (List.mem_cons_self t ts)
    have hstep : checkRateLimit cfg st t id =
        (true, rlSet st id ⟨c + 1, r⟩) := by
      have hc : ¬ cfg.maxRequestsPerWindow ≤ c := by
        simp only [List.length_cons] at hle; omega
      simp [checkRateLimit, hmap, not_le.mpr ht, hc]
    have hmap' : (rlSet st id ⟨c + 1, r⟩).map id = some ⟨c + 1, r⟩ :=
      rlSet_map_self st id _
    have hlt' : ∀ u ∈ ts, u < r := fun u hu => hlt u (List.mem_cons_of_mem t hu)
    have hle' : c + 1 + ts.length ≤ cfg.maxRequestsPerWindow := by
      simp only [List.length_cons] at hle; omega
    have hrec := ih (rlSet st id ⟨c + 1, r⟩) (c + 1) hmap' hlt' hle'
    constructor
    · simp [rlRun, hstep, hrec.1, List.replicate_succ]
    · have hn : c + 1 + ts.length = c + (ts.length + 1) := by omega
      simp only [rlRun, hstep, List.length_cons]
      rw [hrec.2, hn]

/-- C1: for any identifier, after exactly `maxRequestsPerWindow` allowed
calls to `checkRateLimit` within one fixed window (the first call, at
`t1`, creates the entry with `resetTime = t1 + window`; the others stay
before that instant), the next call strictly inside the window returns
`false` and leaves the state untouched; a call at or past `resetTime`
returns `true` and reinitializes the entry to `count = 1`,
`resetTime = now + window`. -/
theorem checkRateLimit_window_property (cfg : SecurityConfig) (st : RLState)
    (id : String) (t1 : Int) (rest : List Int)
    (h0 : st.map id = none)
    (hlen : rest.length + 1 = cfg.maxRequestsPerWindow)
    (hrest : ∀ t ∈ rest, t < t1 + cfg.rateLimitWindow) :
    (rlRun cfg id st (t1 :: rest)).1 =
        List.replicate cfg.maxRequestsPerWindow true ∧
    (rlRun cfg id st (t1 :: rest)).2.map id =
        some ⟨cfg.maxRequestsPerWindow, t1 + cfg.rateLimitWindow⟩ ∧
    (∀ t : Int, t < t1 + cfg.rateLimitWindow →
      checkRateLimit cfg (rlRun cfg id st (t1 :: rest)).2 t id =
        (false, (rlRun cfg id st (t1 :: rest)).2)) ∧
    (∀ t : Int, t1 + cfg.rateLimitWindow ≤ t →
      (checkRateLimit cfg (rlRun cfg id st (t1 :: rest)).2 t id).1 = true ∧
      ((checkRateLimit cfg (rlRun cfg id st (t1 :: rest)).2 t id).2).map id =
        some ⟨1, t + cfg.rateLimitWindow⟩) := by
  have hstep : checkRateLimit cfg st t1 id =
      (true, rlSet st id ⟨1, t1 + cfg.rateLimitWindow⟩) := by
    simp [checkRateLimit, h0]
  have hrec := rlRun_within cfg id (t1 + cfg.rateLimitWindow) rest
      (rlSet st id ⟨1, t1 + cfg.rateLimitWindow⟩) 1
      (rlSet_map_self st id _) hrest (by omega)
  have hfin : (rlRun cfg id st (t1 :: rest)).2.map id =
      some ⟨cfg.maxRequestsPerWindow, t1 + cfg.rateLimitWindow⟩ := by
    simp only [rlRun, hstep]
    rw [hrec.2]
    have : 1 + rest.length = cfg.maxRequestsPerWindow := by omega
    rw [this]
  refine ⟨?_, hfin, ?_, ?_⟩
  · simp only [rlRun, hstep]
    rw [hrec.1, ← hlen, List.replicate_succ]
  · intro t ht
    simp [checkRateLimit, hfin, not_le.mpr ht]
  · intro t ht
    simp [checkRateLimit, hfin, ht, rlSet_map_self]

/-- C1 witness: window 60000 ms, max 2 requests; calls at 0 and 10 are
allowed, a call at 20 is denied without mutation, a call at 60000 is
allowed again with a reinitialized entry. -/
theorem checkRateLimit_window_property_witness :
    (({ defaultConfig with maxRequestsPerWindow := 2 } :
        SecurityConfig).maxRequestsPerWindow = 2) ∧
    (rlRun { defaultConfig with maxRequestsPerWindow := 2 } "x" rlEmpty
        [0, 10]).1 = [true, true] ∧
    (checkRateLimit { defaultConfig with maxRequestsPerWindow := 2 }
        (rlRun { defaultConfig with maxRequestsPerWindow := 2 } "x" rlEmpty
          [0, 10]).2 20 "x" =
      (false,
        (rlRun { defaultConfig with maxRequestsPerWindow := 2 } "x" rlEmpty
          [0, 10]).2)) ∧
    ((checkRateLimit { defaultConfig with maxRequestsPerWindow := 2 }
        (rlRun { defaultConfig with maxRequestsPerWindow := 2 } "x" rlEmpty
          [0, 10]).2 60000 "x").1 = true ∧
      ((checkRateLimit { defaultConfig with maxRequestsPerWindow := 2 }
        (rlRun { defaultConfig with maxRequestsPerWindow := 2 } "x" rlEmpty
          [0, 10]).2 60000 "x").2).map "x" = some ⟨1, 120000⟩) := by
  have h := checkRateLimit_window_property
    { defaultConfig with maxRequestsPerWindow := 2 } rlEmpty "x" 0 [10]
    rfl (by decide) (by decide)
  exact ⟨rfl, h.1, h.2.2.1 20 (by decide), h.2.2.2 60000 (by decide)⟩

theorem mem_postInsert (now : Int) (l : List String) (n : String)
    (hexp : nonceExpired now n = false) (hmem : n ∈ l) :
    n ∈ postInsert now l := by
  unfold postInsert
  split
  · exact List.mem_filter.mpr ⟨hmem, by simp [hexp]⟩
  · exact hmem

/-- C5: a fresh nonce (not in the registry, embedded timestamp within
300000 ms of now) validates to `true` and is inserted; validating the
same nonce again returns `false` and leaves the registry unchanged. -/
theorem validateNonce_replay_property (set : List String) (now1 now2 : Int)
    (n : String) (t : Int)
    (h1 : n ∉ set) (ht : parseIntJS (nonceTsStr n) = some t)
    (hage : now1 - t ≤ 300000) :
    (validateNonce set now1 n).1 = true ∧
    n ∈ (validateNonce set now1 n).2 ∧
    validateNonce (validateNonce set now1 n).2 now2 n =
      (false, (validateNonce set now1 n).2) := by
  have hexp : nonceExpired now1 n = false := by
    simp [nonceExpired, ht]
    omega
  have hres : validateNonce set now1 n =
      (true, postInsert now1 (set ++ [n])) := by
    simp [validateNonce, h1, hexp]
  have hmem : n ∈ (validateNonce set now1 n).2 := by
    rw [hres]
    exact mem_postInsert now1 (set ++ [n]) n hexp (by simp)
  refine ⟨by rw [hres], hmem, ?_⟩
  generalize hg : (validateNonce set now1 n).2 = l at hmem ⊢
  simp [validateNonce, hmem]

/-- C5 witness: registry empty, `now = 1000`, nonce `"900-a"`. -/
theorem validateNonce_replay_property_witness :
    ("900-a" ∉ ([] : List String)) ∧
    parseIntJS (nonceTsStr "900-a") = some 900 ∧
    ((1000 : Int) - 900 ≤ 300000) ∧
    ((validateNonce [] 1000 "900-a").1 = true ∧
     "900-a" ∈ (validateNonce [] 1000 "900-a").2 ∧
     validateNonce (validateNonce [] 1000 "900-a").2 1000 "900-a" =
       (false, (validateNonce [] 1000 "900-a").2)) :=
  ⟨by decide, by decide, by decide,
   validateNonce_replay_property [] 1000 1000 "900-a" 900
     (by decide) (by decide) (by decide)⟩

/-- C6: a nonce not in the registry whose timestamp prefix parses to a
number more than 300000 ms before `now` is rejected and the registry is
left unchanged. -/
theorem validateNonce_expiry_property (set : List String) (now : Int)
    (n : String) (t : Int)
    (h1 : n ∉ set) (ht : parseIntJS (nonceTsStr n) = some t)
    (hage : 300000 < now - t) :
    validateNonce set now n = (false, set) := by
  have hexp : nonceExpired now n = true := by
    simp [nonceExpired, ht]
    omega
  simp [validateNonce, h1, hexp]

/-- C6 witness: registry empty, `now = 400000`, nonce `"1-a"`. -/
theorem validateNonce_expiry_property_witness :
    ("1-a" ∉ ([] : List String)) ∧
    parseIntJS (nonceTsStr "1-a") = some 1 ∧
    ((300000 : Int) < 400000 - 1) ∧
    validateNonce [] 400000 "1-a" = (false, []) :=
  ⟨by decide, by decide, by decide,
   validateNonce_expiry_property [] 400000 "1-a" 1
     (by decide) (by decide) (by decide)⟩

/-- C9: a nonce not in the registry whose portion before the first `-`
does not parse as a number is never rejected by the age check: it
validates to `true` and is inserted. -/
theorem validateNonce_unparsable_timestamp (set : List String) (now : Int)
    (n : String)
    (h1 : n ∉ set) (ht : parseIntJS (nonceTsStr n) = none) :
    (validateNonce set now n).1 = true ∧
    n ∈ (validateNonce set now n).2 := by
  have hexp : nonceExpired now n = false := by
    simp [nonceExpired, ht]
  have hres : validateNonce set now n =
      (true, postInsert now (set ++ [n])) := by
    simp [validateNonce, h1, hexp]
  refine ⟨by rw [hres], ?_⟩
  rw [hres]
  exact mem_postInsert now (set ++ [n]) n hexp (by simp)

/-- C9 witness: registry empty, `now = 0`, nonce `"hello"` (no `-`,
non-numeric prefix). -/
theorem validateNonce_unparsable_timestamp_witness :
    ("hello" ∉ ([] : List String)) ∧
    parseIntJS (nonceTsStr "hello") = none ∧
    ((validateNonce [] 0 "hello").1 = true ∧
     "hello" ∈ (validateNonce [] 0 "hello").2) :=
  ⟨by decide, by decide,
   validateNonce_unparsable_timestamp [] 0 "hello" (by decide) (by decide)⟩

/-- C7: `isValidAddress` returns true iff the address starts with `0x`,
the portion after `0x` has length 1–64, and every character of that
portion is a hex digit; moreover `isValidAddress "abc" = false` and
`isValidAddress "0x" = false`. -/
theorem isValidAddress_characterization :
    (∀ a : String, isValidAddress a = true ↔ specValidAddress a) ∧
    isValidAddress "abc" = false ∧ isValidAddress "0x" = false := by
  refine ⟨?_, by decide, by decide⟩
  intro a
  constructor
  · intro hv
    unfold isValidAddress at hv
    split_ifs at hv with h1 h2 h3
    have h1' : startsWith0x a = true := by
      revert h1; cases startsWith0x a <;> simp
    have h3' : (decide (0 < (a.data.drop 2).length) &&
        (a.data.drop 2).all isHexCh) = true := by
      revert h3; cases (decide (0 < (a.data.drop 2).length) &&
        (a.data.drop 2).all isHexCh) <;> simp
    rw [Bool.and_eq_true] at h3'
    have hpos : 0 < (a.data.drop 2).length := of_decide_eq_true h3'.1
    refine ⟨h1', by omega, by omega, ?_⟩
    exact List.all_eq_true.mp h3'.2
  · intro ⟨hs, hge, hle, hall⟩
    unfold isValidAddress
    split_ifs with h1 h2 h3
    · rw [hs] at h1; exact absurd h1 (by simp)
    · exact absurd h2 (by omega)
    · have hd : decide (0 < (a.data.drop 2).length) = true :=
        decide_eq_true (by omega)
      have ha : (a.data.drop 2).all isHexCh = true := List.all_eq_true.mpr hall
      rw [hd, ha] at h3
      exact absurd h3 (by simp)
    · rfl

/-- C8: `sanitizeMessage` is idempotent. -/
theorem sanitizeMessage_idempotent (s : String) :
    sanitizeMessage (sanitizeMessage s) = sanitizeMessage s := by
  have key : ∀ m : List Char, (∀ c ∈ m, isCtlCh c = false) →
      m.length ≤ 10000 → sanitizeMessage ⟨m⟩ = ⟨m⟩ := by
    intro m hall hlen
    have hfil : m.filter (fun c => !isCtlCh c) = m :=
      List.filter_eq_self.mpr (fun a ha => by simp [hall a ha])
    simp only [sanitizeMessage]
    rw [hfil, if_neg (by omega)]
  by_cases h : 10000 < (s.data.filter (fun c => !isCtlCh c)).length
  · have hres : sanitizeMessage s =
        ⟨(s.data.filter (fun c => !isCtlCh c)).take 10000⟩ := by
      simp only [sanitizeMessage]
      rw [if_pos h]
    rw [hres]
    apply key
    · intro c hc
      have hc' : c ∈ s.data.filter (fun c => !isCtlCh c) :=
        List.take_subset _ _ hc
      have := List.of_mem_filter hc'
      simpa using this
    · rw [List.length_take]; omega
  · have hres : sanitizeMessage s = ⟨s.data.filter (fun c => !isCtlCh c)⟩ := by
      simp only [sanitizeMessage]
      rw [if_neg h]
    rw [hres]
    apply key
    · intro c hc
      have := List.of_mem_filter hc
      simpa using this
    · omega

/-- C3 evidence: `validateTransaction` is not total on payloads — for a
`::transfer` function whose last argument is a non-numeric string, the
unconditional `BigInt(amount)` conversion throws instead of letting
validation proceed to the remaining checks. -/
theorem validateTransaction_throws_on_nonnumeric_transfer_amount :
    validateTransaction defaultConfig
      ⟨some (JSVal.str "0x1::coin::transfer"),
       some [JSVal.str "oops"], some []⟩ =
      Except.error "Cannot convert oops to a BigInt" := rfl

/-- C4: for a payload whose function matches the pattern and contains
`::transfer`, with last argument a numeric string of value `v` against a
configured ceiling of value `m`: if `m < v`, validation fails with the
message naming the configured ceiling; if `v = m`, the transfer-ceiling
check passes and validation proceeds to the address checks. -/
theorem validateTransaction_transfer_ceiling (cfg : SecurityConfig)
    (f : String) (args ta : List JSVal) (a : String) (v m : Int)
    (hf : functionPatternTest f = true)
    (htr : strIncludes f "::transfer" = true)
    (hlast : args.getLast? = some (JSVal.str a))
    (hv : jsBigInt? a = some v)
    (hm : jsBigInt? cfg.maxTransactionAmount = some m) :
    (m < v → validateTransaction cfg ⟨some (JSVal.str f), some args, some ta⟩ =
      Except.ok ⟨false, some ("Transaction amount exceeds maximum allowed (" ++
        cfg.maxTransactionAmount ++ ")")⟩) ∧
    (v = m → transferAmountCheck cfg f args = Except.ok none ∧
      validateTransaction cfg ⟨some (JSVal.str f), some args, some ta⟩ =
        Except.ok (addressArgsCheck args)) := by
  have hf0 : ¬ f = "" := by
    intro h
    rw [h] at hf
    exact absurd hf (by decide)
  constructor
  · intro hlt
    have ht : transferAmountCheck cfg f args =
        Except.ok (some ("Transaction amount exceeds maximum allowed (" ++
          cfg.maxTransactionAmount ++ ")")) := by
      simp [transferAmountCheck, htr, hlast, hv, hm, hlt]
    simp [validateTransaction, hf0, hf, ht]
  · intro heq
    subst heq
    have ht : transferAmountCheck cfg f args = Except.ok none := by
      simp [transferAmountCheck, htr, hlast, hv, hm]
    exact ⟨ht, by simp [validateTransaction, hf0, hf, ht]⟩

/-- C4 witness: end-to-end scenario B — default ceiling 1000000000000,
amount 2000000000000 rejected with the exact message; amount equal to
the ceiling passes the transfer check. -/
theorem validateTransaction_transfer_ceiling_witness :
    functionPatternTest "0x1::coin::transfer" = true ∧
    strIncludes "0x1::coin::transfer" "::transfer" = true ∧
    ([JSVal.str "0xabc", JSVal.str "2000000000000"].getLast? =
      some (JSVal.str "2000000000000")) ∧
    jsBigInt? "2000000000000" = some 2000000000000 ∧
    jsBigInt? defaultConfig.maxTransactionAmount = some 1000000000000 ∧
    validateTransaction defaultConfig
      ⟨some (JSVal.str "0x1::coin::transfer"),
       some [JSVal.str "0xabc", JSVal.str "2000000000000"], some []⟩ =
      Except.ok ⟨false,
        some "Transaction amount exceeds maximum allowed (1000000000000)"⟩ ∧
    transferAmountCheck defaultConfig "0x1::coin::transfer"
      [JSVal.str "0xabc", JSVal.str "1000000000000"] = Except.ok none := by
  refine ⟨by decide, by decide, by decide, by decide, by decide, ?_, ?_⟩
  · exact (validateTransaction_transfer_ceiling defaultConfig
      "0x1::coin::transfer" [JSVal.str "0xabc", JSVal.str "2000000000000"] []
      "2000000000000" 2000000000000 1000000000000
      (by decide) (by decide) (by decide) (by decide) (by decide)).1
      (by decide)
  · exact ((validateTransaction_transfer_ceiling defaultConfig
      "0x1::coin::transfer" [JSVal.str "0xabc", JSVal.str "1000000000000"] []
      "1000000000000" 1000000000000 1000000000000
      (by decide) (by decide) (by decide) (by decide) (by decide)).2 rfl).1

/-- C2 counterexample: with an empty `secondarySigners` list and a valid
base payload, `sendMultiAgentTransaction` does fail with the
"requires at least one secondary signer" error — but contrary to the
claim, `validateTransaction` has already been called on the payload. -/
theorem sendMultiAgent_validator_called_counterexample :
    ((sendMultiAgentTransaction defaultConfig rlEmpty 0
        ⟨⟨some (JSVal.str "0x1::coin::foo"), some [], some []⟩,
         some []⟩).1.outcome =
      Except.error
        "Multi-agent transaction requires at least one secondary signer") ∧
    (sendMultiAgentTransaction defaultConfig rlEmpty 0
        ⟨⟨some (JSVal.str "0x1::coin::foo"), some [], some []⟩,
         some []⟩).1.validatorCalled = true :=
  ⟨rfl, rfl⟩

/-- C2 (amended): with the rate limit not exceeded, an empty or missing
`secondarySigners` list makes `sendMultiAgentTransaction` fail with the
"requires at least one secondary signer" error without calling the
underlying bridge — but only after `validateTransaction` has been called
on the payload and passed. -/
theorem sendMultiAgent_empty_signers (cfg : SecurityConfig) (rl : RLState)
    (now : Int) (p : MAPayload) (e : Option String)
    (hr : (checkRateLimit cfg rl now "sendMultiAgentTransaction").1 = true)
    (hv : validateTransaction cfg p.base = Except.ok ⟨true, e⟩)
    (hs : p.secondarySigners = none ∨ p.secondarySigners = some []) :
    (sendMultiAgentTransaction cfg rl now p).1.validatorCalled = true ∧
    (sendMultiAgentTransaction cfg rl now p).1.bridgeCalled = false ∧
    (sendMultiAgentTransaction cfg rl now p).1.outcome =
      Except.error
        "Multi-agent transaction requires at least one secondary signer" := by
  rcases hs with hs | hs <;>
    simp [sendMultiAgentTransaction, hr, hv, hs]

/-- C2 witness: empty signer list, fresh rate limiter, valid base
payload. -/
theorem sendMultiAgent_empty_signers_witness :
    ((checkRateLimit defaultConfig rlEmpty 0
        "sendMultiAgentTransaction").1 = true) ∧
    (validateTransaction defaultConfig
      ⟨some (JSVal.str "0x1::coin::foo"), some [], some []⟩ =
      Except.ok ⟨true, none⟩) ∧
    ((sendMultiAgentTransaction defaultConfig rlEmpty 0
        ⟨⟨some (JSVal.str "0x1::coin::foo"), some [], some []⟩,
         some []⟩).1.validatorCalled = true ∧
     (sendMultiAgentTransaction defaultConfig rlEmpty 0
        ⟨⟨some (JSVal.str "0x1::coin::foo"), some [], some []⟩,
         some []⟩).1.bridgeCalled = false ∧
     (sendMultiAgentTransaction defaultConfig rlEmpty 0
        ⟨⟨some (JSVal.str "0x1::coin::foo"), some [], some []⟩,
         some []⟩).1.outcome =
       Except.error
         "Multi-agent transaction requires at least one secondary signer") :=
  ⟨rfl, rfl,
   sendMultiAgent_empty_signers defaultConfig rlEmpty 0
     ⟨⟨some (JSVal.str "0x1::coin::foo"), some [], some []⟩, some []⟩
     none rfl rfl (Or.inr rfl)⟩

/-- C10: when `signMessage` is called with no nonce (and the rate limit
allows the call), the generated nonce is written into the caller's own
payload object, the caller's message is left unsanitized, and the bridge
receives a copy carrying the generated nonce and the sanitized
message. -/
theorem signMessage_mutates_caller_nonce_only (cfg : SecurityConfig)
    (rl : RLState) (nonces : List String) (now : Int) (rand : String)
    (payload : SMPayload)
    (hn : payload.nonce = none)
    (hr : (checkRateLimit cfg rl now "signMessage").1 = true) :
    (signMessage cfg rl nonces now rand payload).1.callerPayload =
      withGeneratedNonce payload now rand ∧
    (signMessage cfg rl nonces now rand payload).1.callerPayload.nonce =
      some (generateNonce now rand) ∧
    (signMessage cfg rl nonces now rand payload).1.callerPayload.message =
      payload.message ∧
    (signMessage cfg rl nonces now rand payload).1.bridgeArg =
      some (withSanitizedMessage (withGeneratedNonce payload now rand)) ∧
    (withSanitizedMessage (withGeneratedNonce payload now rand)).message =
      sanitizeMessage payload.message ∧
    (withSanitizedMessage (withGeneratedNonce payload now rand)).nonce =
      some (generateNonce now rand) := by
  simp [signMessage, hn, hr, withGeneratedNonce, withSanitizedMessage]

/-- C10 witness: payload `{message := "hi"}` with no nonce, fresh rate
limiter. -/
theorem signMessage_mutates_caller_nonce_only_witness :
    ((⟨"hi", none⟩ : SMPayload).nonce = none) ∧
    ((checkRateLimit defaultConfig rlEmpty 5 "signMessage").1 = true) ∧
    ((signMessage defaultConfig rlEmpty [] 5 "r"
        ⟨"hi", none⟩).1.callerPayload =
      withGeneratedNonce ⟨"hi", none⟩ 5 "r" ∧
     (signMessage defaultConfig rlEmpty [] 5 "r"
        ⟨"hi", none⟩).1.callerPayload.nonce = some (generateNonce 5 "r") ∧
     (signMessage defaultConfig rlEmpty [] 5 "r"
        ⟨"hi", none⟩).1.callerPayload.message = "hi" ∧
     (signMessage defaultConfig rlEmpty [] 5 "r"
        ⟨"hi", none⟩).1.bridgeArg =
       some (withSanitizedMessage (withGeneratedNonce ⟨"hi", none⟩ 5 "r")) ∧
     (withSanitizedMessage (withGeneratedNonce ⟨"hi", none⟩ 5 "r")).message =
       sanitizeMessage "hi" ∧
     (withSanitizedMessage (withGeneratedNonce ⟨"hi", none⟩ 5 "r")).nonce =
       some (generateNonce 5 "r")) :=
  ⟨rfl, rfl,
   signMessage_mutates_caller_nonce_only defaultConfig rlEmpty [] 5 "r"
     ⟨"hi", none⟩ rfl rfl⟩
